import Mathlib

/-!
# Verification of the GoHTTP connection-lifecycle server core

A shallow embedding of the `server` package (the `Server` type and its
accept loop, per-connection reader task, eviction sweeper, registration,
`Read` and `Shutdown` methods).  Each Go function is embedded as a pure
Lean function; the outcomes of its external calls (listener accept,
setting a read deadline, channel state) are passed in as parameters, and
the side effects the function performs are collected as an explicit trace
of actions, in program order.
-/

set_option autoImplicit false

namespace GoHTTPServer

/-- Errors of Go's `os.Error` interface, to the extent the server core
distinguishes them: `os.EAGAIN`, `os.EBADF`, an `os.PathError` wrapping an
inner error, and any other error value. -/
inductive OsError where
  | eagain : OsError
  | ebadf : OsError
  | pathError (inner : OsError) : OsError
  | otherErr (code : Nat) : OsError
deriving DecidableEq

/-- The deadline test performed in `Server.read`:
`perr, ok := err.(*os.PathError)` followed by `ok && perr.Error == os.EAGAIN`. -/
def isDeadlineErr : OsError → Bool
  | OsError.pathError OsError.eagain => true
  | _ => false

/-- Modelled from the spec: the `Query` type and `newQueryErr` live in a file
of this repository that is not under `src/` (only their uses in the server
core are visible).  Per the spec, a Query carries the originating connection
and the parsed request, and a terminal Query carries only an error.
Connections and requests are identified by handles (`Nat`). -/
structure Query where
  conn : Option Nat
  req : Option Nat
  err : Option OsError
deriving DecidableEq

/-- Modelled from the spec: a terminal Query carrying only an error. -/
def newQueryErr (e : OsError) : Query :=
  { conn := none, req := none, err := some e }

/-- Modelled from the spec: the error carried by a Query, if any. -/
def Query.getError (q : Query) : Option OsError :=
  q.err

/-- The server state visible to the embedded methods: the listener reference
(`nil`-able, used as the live/dead flag), the registry of currently
registered connections (connections are identified by handles), and whether
the request delivery channel `qch` has been closed. -/
structure ServerState where
  listen : Option Nat
  conns : List Nat
  qchClosed : Bool
deriving DecidableEq

/-- `Server.Read`: receives `q := <-srv.qch`, then under the coarse lock
checks `closed(srv.qch)` and returns `os.EBADF` if so; otherwise returns the
query's own error if it carries one, or the query itself.  The first
parameter is the value of `closed(srv.qch)` at the moment of the check,
which may have become true after the dequeue; the second is the dequeued
query. -/
def Read (qchClosedAtCheck : Bool) (q : Query) : Option Query × Option OsError :=
  if qchClosedAtCheck then (none, some OsError.ebadf)
  else
    match q.getError with
    | some e => (none, some e)
    | none => (some q, none)

/-- Outcome of `Server.register`: success, failure (`qch` closed), or the
`"register twice"` panic. -/
inductive RegOutcome where
  | regOk : RegOutcome
  | regFail : RegOutcome
  | regPanic : RegOutcome
deriving DecidableEq

/-- `Server.register`: under the coarse lock, fails if `closed(srv.qch)`,
panics if the connection is already present, otherwise adds it.  Returns the
outcome together with the resulting registry. -/
def register (qchClosed : Bool) (conns : List Nat) (ssc : Nat) : RegOutcome × List Nat :=
  if qchClosed then (RegOutcome.regFail, conns)
  else if ssc ∈ conns then (RegOutcome.regPanic, conns)
  else (RegOutcome.regOk, ssc :: conns)

/-- Actions performed by the reader task `Server.read` (one per connection). -/
inductive ReadAct where
  | unregisterConn : ReadAct
  | closeConn : ReadAct
  | deliverQuery (req : Nat) : ReadAct
deriving DecidableEq

/-- `Server.read`, the one-shot reader task: performs one `ssc.Read()`.
The parameter is that read's result: `Sum.inl e` an error, `Sum.inr req` a
parsed request.  On the deadline error (`*os.PathError` wrapping
`os.EAGAIN`) it buries the connection (`srv.bury`: unregister then close)
and returns; on any other error it likewise buries and returns; on success
it sends `&Query{srv, ssc, req, nil, false, false}` on `srv.qch` and
returns. -/
def read (result : Sum OsError Nat) : List ReadAct :=
  match result with
  | Sum.inl e =>
    if isDeadlineErr e then [ReadAct.unregisterConn, ReadAct.closeConn]
    else [ReadAct.unregisterConn, ReadAct.closeConn]
  | Sum.inr req => [ReadAct.deliverQuery req]

/-- Actions performed by an iteration of `Server.acceptLoop`, in program
order. `fdlLock`/`fdlUnlock` are the admission-slot acquire/release,
`acceptCall` is the call `l.Accept()`, `installCloseHook` is
`NewRunOnCloseConn(c, func() { srv.fdl.Unlock() })`, `registerConn` records
the outcome of `srv.register(ssc)`, and `spawnReader` is `go srv.read(ssc)`. -/
inductive AcceptAct where
  | fdlLock : AcceptAct
  | acceptCall : AcceptAct
  | closeRaw : AcceptAct
  | fdlUnlock : AcceptAct
  | sendErrQuery (e : OsError) : AcceptAct
  | setKeepAlive : AcceptAct
  | installCloseHook : AcceptAct
  | closeSSC : AcceptAct
  | registerConn (ok : Bool) : AcceptAct
  | spawnReader : AcceptAct
deriving DecidableEq

/-- Whether an iteration of the accept loop returns (ending the goroutine)
or loops to the next iteration. -/
inductive IterOutcome where
  | exitLoop : IterOutcome
  | nextIter : IterOutcome
deriving DecidableEq

/-- The oracle for one iteration of `Server.acceptLoop`: whether
`srv.listen` reads as nil, the error from `l.Accept()` (with whether the
returned conn was nil alongside the error), the error from
`c.SetReadTimeout(srv.tmo)`, and whether `srv.register` succeeds. -/
structure AcceptEnv where
  listenerNil : Bool
  acceptErr : Option OsError
  acceptConnNil : Bool
  setTimeoutErr : Option OsError
  registerOk : Bool
deriving DecidableEq

/-- One iteration of `Server.acceptLoop`:
reads `srv.listen` under the lock and returns if nil; calls
`srv.fdl.Lock()`; calls `l.Accept()` — on error, closes the conn if
non-nil, releases the slot, sends `newQueryErr(err)` on `srv.qch` and
returns; sets keep-alive; calls `c.SetReadTimeout(srv.tmo)` — on error,
closes the conn, releases the slot, sends `newQueryErr(err)` and returns;
wraps the conn with the close-hook releasing the slot, stamps it, and calls
`srv.register` — if that fails, closes `ssc` and `c`; finally runs
`go srv.read(ssc)` and loops. -/
def acceptIter (env : AcceptEnv) : List AcceptAct × IterOutcome :=
  if env.listenerNil then ([], IterOutcome.exitLoop)
  else
    match env.acceptErr with
    | some e =>
      (AcceptAct.fdlLock :: AcceptAct.acceptCall ::
        ((if env.acceptConnNil then [] else [AcceptAct.closeRaw]) ++
          [AcceptAct.fdlUnlock, AcceptAct.sendErrQuery e]),
        IterOutcome.exitLoop)
    | none =>
      match env.setTimeoutErr with
      | some e =>
        ([AcceptAct.fdlLock, AcceptAct.acceptCall, AcceptAct.setKeepAlive,
          AcceptAct.closeRaw, AcceptAct.fdlUnlock, AcceptAct.sendErrQuery e],
          IterOutcome.exitLoop)
      | none =>
        (AcceptAct.fdlLock :: AcceptAct.acceptCall :: AcceptAct.setKeepAlive ::
          AcceptAct.installCloseHook :: AcceptAct.registerConn env.registerOk ::
          ((if env.registerOk then [] else [AcceptAct.closeSSC, AcceptAct.closeRaw]) ++
            [AcceptAct.spawnReader]),
          IterOutcome.nextIter)

/-- The accept loop run against a stream of per-iteration oracles: the
concatenated action trace, cut short at the first iteration that returns. -/
def acceptLoopRun : List AcceptEnv → List AcceptAct
  | [] => []
  | env :: rest =>
    match acceptIter env with
    | (acts, IterOutcome.exitLoop) => acts
    | (acts, IterOutcome.nextIter) => acts ++ acceptLoopRun rest

/-- Modelled from the spec: the `FDLimiter` (Admission Controller) lives in
the `util` package, which is not under `src/`.  Per the spec it is a
counting capacity gate with fixed capacity `C`: `acquire` blocks until a
slot is free (so it can only fire when fewer than `C` slots are held) and
takes one; `release` returns one held slot.  A step relates the number of
held slots before and after. -/
inductive FDStep (C : Nat) : Nat → Nat → Prop
  | acquire {n : Nat} : n < C → FDStep C n (n + 1)
  | release {n : Nat} : 0 < n → FDStep C n (n - 1)

/-- Modelled from the spec: the slot counts reachable from an idle
`FDLimiter` of capacity `C` by any interleaving of acquires and releases. -/
inductive FDReachable (C : Nat) : Nat → Prop
  | init : FDReachable C 0
  | step {m n : Nat} : FDReachable C m → FDStep C m n → FDReachable C n

/-- The slot-accounting discipline of one accept-loop iteration: at most one
slot is acquired, and each acquired slot carries exactly one release
obligation — either an immediate `fdl.Unlock()` on the error paths, or the
installed close-hook that fires when the connection is actually closed. -/
def slotDiscipline (acts : List AcceptAct) : Prop :=
  acts.count AcceptAct.fdlLock ≤ 1 ∧
    acts.count AcceptAct.fdlLock =
      acts.count AcceptAct.fdlUnlock + acts.count AcceptAct.installCloseHook

instance (acts : List AcceptAct) : Decidable (slotDiscipline acts) := by
  unfold slotDiscipline
  infer_instance

/-- Actions performed by one cycle of `Server.expireLoop` (the eviction
sweeper), in program order: acquiring and releasing the coarse lock, the
snapshot of stale connections taken while the lock is held, exiting the
goroutine, burying one connection (`srv.bury`), and the inter-cycle sleep. -/
inductive SweepAct where
  | lockAcq : SweepAct
  | snapshotKills (kills : List Nat) : SweepAct
  | lockRel : SweepAct
  | sweepExit : SweepAct
  | buryC (ssc : Nat) : SweepAct
  | sleepFor (d : Int) : SweepAct
deriving DecidableEq

/-- The `kills` list built inside the coarse lock in `Server.expireLoop`:
iterates over the registered connections, pushing back every `ssc` with
`now - ssc.GetStamp() >= srv.tmo` onto the (initially empty) kill list. -/
def collectKills (conns : List Nat) (stamp : Nat → Int) (now tmo : Int) : List Nat :=
  conns.foldl (fun kills ssc => if now - stamp ssc ≥ tmo then kills ++ [ssc] else kills) []

/-- The loop over the collected kill list in `Server.expireLoop`: walks the
list front to back, burying each element. -/
def buryAll : List Nat → List SweepAct
  | [] => []
  | ssc :: rest => SweepAct.buryC ssc :: buryAll rest

/-- One cycle of `Server.expireLoop`: takes the coarse lock; if
`srv.listen == nil`, unlocks and returns; otherwise reads `now`, builds the
kill list from the registry, unlocks, buries every collected connection
outside the lock, and sleeps `srv.tmo` before the next cycle.  `stamp` gives
each registered connection's `GetStamp()` value. -/
def expireCycle (listen : Option Nat) (conns : List Nat) (stamp : Nat → Int)
    (now tmo : Int) : List SweepAct :=
  match listen with
  | none => [SweepAct.lockAcq, SweepAct.lockRel, SweepAct.sweepExit]
  | some _ =>
    SweepAct.lockAcq :: SweepAct.snapshotKills (collectKills conns stamp now tmo) ::
      SweepAct.lockRel ::
        (buryAll (collectKills conns stamp now tmo) ++ [SweepAct.sleepFor tmo])

/-- Actions performed by `Server.Shutdown`, in program order. -/
inductive ShutAct where
  | nilListener : ShutAct
  | closeQch : ShutAct
  | closeListener (l : Nat) : ShutAct
  | forceClose (ssc : Nat) : ShutAct
  | removeConn (ssc : Nat) : ShutAct
deriving DecidableEq

/-- The force-close loop of `Server.Shutdown`: for every registered
connection, closes it and deletes it from the registry map. -/
def forceCloseAll : List Nat → List ShutAct
  | [] => []
  | ssc :: rest => ShutAct.forceClose ssc :: ShutAct.removeConn ssc :: forceCloseAll rest

/-- `Server.Shutdown`: under the coarse lock, detaches the listener
(`l, srv.listen = srv.listen, nil`) and closes `srv.qch`; closes the
detached listener if non-nil; then, under the lock again, force-closes every
registered connection and deletes each from the registry.  Returns the
resulting server state and the action trace. -/
def Shutdown (st : ServerState) : ServerState × List ShutAct :=
  ({ listen := none, conns := [], qchClosed := true },
    ShutAct.nilListener :: ShutAct.closeQch ::
      ((match st.listen with
        | some l => [ShutAct.closeListener l]
        | none => []) ++
        forceCloseAll st.conns))

/-- The two background tasks started by `NewServer`. -/
inductive TaskKind where
  | acceptTask : TaskKind
  | expireTask : TaskKind
deriving DecidableEq

/-- The result of a successful `NewServer` call: the initial server state,
the admission capacity handed to `srv.fdl.Init(fdlim)`, and the background
tasks spawned before returning. -/
structure ServerInit where
  state : ServerState
  fdCapacity : Nat
  tasks : List TaskKind
deriving DecidableEq

/-- `NewServer l tmo fdlim`: panics (`"timeout too small"`) when `tmo < 2`,
modelled as `none`; otherwise builds the server with the given listener, an
empty registry and an open delivery channel, initializes the admission
limiter to `fdlim`, starts `acceptLoop` and `expireLoop` as goroutines, and
returns. -/
def NewServer (l : Nat) (tmo : Int) (fdlim : Nat) : Option ServerInit :=
  if tmo < 2 then none
  else
    some
      { state := { listen := some l, conns := [], qchClosed := false },
        fdCapacity := fdlim,
        tasks := [TaskKind.acceptTask, TaskKind.expireTask] }

/-- Recognizes the send of a terminal error Query on `srv.qch`. -/
def isSendErr : AcceptAct → Bool
  | AcceptAct.sendErrQuery _ => true
  | _ => false

/-! ## Helper lemmas -/

/-- Every accept-loop iteration obeys the slot-accounting discipline. -/
theorem slotDiscipline_acceptIter (env : AcceptEnv) :
    slotDiscipline (acceptIter env).1 := by
  obtain ⟨ln, ae, acn, ste, ro⟩ := env
  cases ln <;> cases ae <;> cases ste <;> cases acn <;> cases ro <;>
    simp [acceptIter, slotDiscipline, List.count_cons, List.count_append]

/-- A live-listener iteration acquires the slot and then immediately calls
accept. -/
theorem acceptIter_lock_before_accept (env : AcceptEnv)
    (h : env.listenerNil = false) :
    ∃ tail, (acceptIter env).1 = AcceptAct.fdlLock :: AcceptAct.acceptCall :: tail := by
  obtain ⟨ln, ae, acn, ste, ro⟩ := env
  subst h
  cases ae <;> cases ste <;> simp [acceptIter]

/-- The kill list built by the sweeper's fold equals a filter of the
registry snapshot. -/
theorem collectKills_eq_filter (conns : List Nat) (stamp : Nat → Int) (now tmo : Int) :
    collectKills conns stamp now tmo =
      conns.filter (fun ssc => now - stamp ssc ≥ tmo) := by
  unfold collectKills
  suffices h : ∀ acc : List Nat,
      conns.foldl (fun kills ssc => if now - stamp ssc ≥ tmo then kills ++ [ssc] else kills) acc =
        acc ++ conns.filter (fun ssc => now - stamp ssc ≥ tmo) by
    simpa using h []
  induction conns with
  | nil => intro acc; simp
  | cons c rest ih =>
    intro acc
    by_cases hc : now - stamp c ≥ tmo <;> simp [List.filter_cons, hc, ih]

/-- Membership in the sweeper's bury loop. -/
theorem buryC_mem_buryAll (kills : List Nat) (ssc : Nat) :
    SweepAct.buryC ssc ∈ buryAll kills ↔ ssc ∈ kills := by
  induction kills with
  | nil => simp [buryAll]
  | cons k rest ih => simp [buryAll, ih]

/-- The bury loop emits only bury actions. -/
theorem mem_buryAll_eq_buryC (kills : List Nat) (a : SweepAct) :
    a ∈ buryAll kills → ∃ ssc, a = SweepAct.buryC ssc ∧ ssc ∈ kills := by
  induction kills with
  | nil => intro h; simp [buryAll] at h
  | cons k rest ih =>
    intro h
    rw [buryAll] at h
    rcases List.mem_cons.1 h with h | h
    · exact ⟨k, h, List.mem_cons_self k rest⟩
    · obtain ⟨ssc, ha, hm⟩ := ih h
      exact ⟨ssc, ha, List.mem_cons_of_mem k hm⟩

/-- Every registered connection is force-closed by the shutdown loop. -/
theorem forceClose_mem_forceCloseAll (conns : List Nat) (ssc : Nat) :
    ssc ∈ conns → ShutAct.forceClose ssc ∈ forceCloseAll conns := by
  induction conns with
  | nil => intro h; simp at h
  | cons c rest ih =>
    intro h
    rw [forceCloseAll]
    rcases List.mem_cons.1 h with h | h
    · subst h
      exact List.mem_cons_self _ _
    · exact List.mem_cons_of_mem _ (List.mem_cons_of_mem _ (ih h))

/-- A reachable slot count of the modelled admission controller never
exceeds its capacity. -/
theorem fdReachable_le (C n : Nat) (h : FDReachable C n) : n ≤ C := by
  induction h with
  | init => exact Nat.zero_le C
  | step hr hs ih =>
    cases hs with
    | acquire hlt => omega
    | release hpos => omega

/-! ## Claims -/

/-- C1, counterexample: in the iteration where a connection is accepted,
its read deadline set, and its registration fails, the accept loop does
spawn a reader task (`go srv.read(ssc)` is not guarded by the registration
check), contradicting the claim that the iteration is abandoned without
spawning a Reader. -/
theorem acceptIter_registerFail_spawnsReader_cex :
    AcceptAct.spawnReader ∈
      (acceptIter
        { listenerNil := false, acceptErr := none, acceptConnNil := false,
          setTimeoutErr := none, registerOk := false }).1 := by
  decide

/-- C1, amended: in the Accept Loop, for every newly accepted connection
whose registration fails, the connection is closed immediately (both the
wrapper and the raw connection), but the loop nevertheless spawns a Reader
task for the already-closed connection and proceeds to the next
iteration. -/
theorem acceptIter_registerFail_closes_then_spawnsReader (acn : Bool) :
    acceptIter
        { listenerNil := false, acceptErr := none, acceptConnNil := acn,
          setTimeoutErr := none, registerOk := false } =
      ([AcceptAct.fdlLock, AcceptAct.acceptCall, AcceptAct.setKeepAlive,
        AcceptAct.installCloseHook, AcceptAct.registerConn false,
        AcceptAct.closeSSC, AcceptAct.closeRaw, AcceptAct.spawnReader],
        IterOutcome.nextIter) := by
  cases acn <;> rfl

/-- C1, amended, witness: the trace at a concrete iteration with nil-conn
flag `true`. -/
theorem acceptIter_registerFail_closes_then_spawnsReader_witness :
    acceptIter
        { listenerNil := false, acceptErr := none, acceptConnNil := true,
          setTimeoutErr := none, registerOk := false } =
      ([AcceptAct.fdlLock, AcceptAct.acceptCall, AcceptAct.setKeepAlive,
        AcceptAct.installCloseHook, AcceptAct.registerConn false,
        AcceptAct.closeSSC, AcceptAct.closeRaw, AcceptAct.spawnReader],
        IterOutcome.nextIter) :=
  acceptIter_registerFail_closes_then_spawnsReader true

/-- C2: the modelled admission controller never holds more than `C` slots,
every accept-loop iteration acquires at most one slot with exactly one
release obligation per acquired slot (an immediate release on the error
paths, or the close-hook that fires when the connection is actually
closed), and on a live listener the slot is acquired immediately before the
accept call. -/
theorem capacity_never_exceeded (C n : Nat) (h : FDReachable C n) :
    n ≤ C ∧
      (∀ env, slotDiscipline (acceptIter env).1) ∧
      (∀ env, env.listenerNil = false →
        ∃ tail, (acceptIter env).1 = AcceptAct.fdlLock :: AcceptAct.acceptCall :: tail) :=
  ⟨fdReachable_le C n h, slotDiscipline_acceptIter, acceptIter_lock_before_accept⟩

/-- C2, witness: with capacity 2, the count 2 is reachable (two acquires)
and the conclusions hold there. -/
theorem capacity_never_exceeded_witness :
    2 ≤ 2 ∧
      (∀ env, slotDiscipline (acceptIter env).1) ∧
      (∀ env, env.listenerNil = false →
        ∃ tail, (acceptIter env).1 = AcceptAct.fdlLock :: AcceptAct.acceptCall :: tail) :=
  capacity_never_exceeded 2 2
    (FDReachable.step
      (FDReachable.step FDReachable.init (FDStep.acquire (by decide)))
      (FDStep.acquire (by decide)))

/-- C3: when `l.Accept()` fails, the iteration's trace (and hence the whole
remaining accept-loop trace, for any continuation) closes the conn if
non-nil, releases the slot, sends exactly one terminal error Query, makes
no further accept call, and the loop exits; `Read` on the open channel
surfaces that terminal Query's error. -/
theorem accept_failure_terminal (env : AcceptEnv) (e : OsError) (rest : List AcceptEnv)
    (hl : env.listenerNil = false) (ha : env.acceptErr = some e) :
    acceptLoopRun (env :: rest) =
      AcceptAct.fdlLock :: AcceptAct.acceptCall ::
        ((if env.acceptConnNil then [] else [AcceptAct.closeRaw]) ++
          [AcceptAct.fdlUnlock, AcceptAct.sendErrQuery e]) ∧
      (acceptLoopRun (env :: rest)).count AcceptAct.acceptCall = 1 ∧
      (acceptLoopRun (env :: rest)).countP isSendErr = 1 ∧
      AcceptAct.fdlUnlock ∈ acceptLoopRun (env :: rest) ∧
      Read false (newQueryErr e) = (none, some e) := by
  obtain ⟨ln, ae, acn, ste, ro⟩ := env
  simp only at hl ha
  subst hl
  subst ha
  cases acn <;>
    simp [acceptLoopRun, acceptIter, isSendErr, List.count_cons, List.count_append,
      List.countP_cons, Read, newQueryErr, Query.getError]

/-- C3, witness: a concrete accept failure (`os.EBADF`, nil conn) followed
by a would-be further iteration that is never reached. -/
theorem accept_failure_terminal_witness :
    acceptLoopRun
        [{ listenerNil := false, acceptErr := some OsError.ebadf, acceptConnNil := true,
           setTimeoutErr := none, registerOk := true },
         { listenerNil := false, acceptErr := none, acceptConnNil := false,
           setTimeoutErr := none, registerOk := true }] =
      AcceptAct.fdlLock :: AcceptAct.acceptCall ::
        ((if true then ([] : List AcceptAct) else [AcceptAct.closeRaw]) ++
          [AcceptAct.fdlUnlock, AcceptAct.sendErrQuery OsError.ebadf]) ∧
      (acceptLoopRun
        [{ listenerNil := false, acceptErr := some OsError.ebadf, acceptConnNil := true,
           setTimeoutErr := none, registerOk := true },
         { listenerNil := false, acceptErr := none, acceptConnNil := false,
           setTimeoutErr := none, registerOk := true }]).count AcceptAct.acceptCall = 1 ∧
      (acceptLoopRun
        [{ listenerNil := false, acceptErr := some OsError.ebadf, acceptConnNil := true,
           setTimeoutErr := none, registerOk := true },
         { listenerNil := false, acceptErr := none, acceptConnNil := false,
           setTimeoutErr := none, registerOk := true }]).countP isSendErr = 1 ∧
      AcceptAct.fdlUnlock ∈ acceptLoopRun
        [{ listenerNil := false, acceptErr := some OsError.ebadf, acceptConnNil := true,
           setTimeoutErr := none, registerOk := true },
         { listenerNil := false, acceptErr := none, acceptConnNil := false,
           setTimeoutErr := none, registerOk := true }] ∧
      Read false (newQueryErr OsError.ebadf) = (none, some OsError.ebadf) :=
  accept_failure_terminal _ OsError.ebadf _ rfl rfl

/-- C4: whatever error the single `ssc.Read()` returns — the deadline error
(`*os.PathError` wrapping `os.EAGAIN`) or any other — the reader task
buries the connection (unregister, then close) and delivers nothing on the
delivery channel. -/
theorem read_failure_buries_silently (e : OsError) :
    read (Sum.inl e) = [ReadAct.unregisterConn, ReadAct.closeConn] ∧
      ∀ req, ReadAct.deliverQuery req ∉ read (Sum.inl e) := by
  constructor
  · simp [read, ite_self]
  · intro req
    simp [read, ite_self]

/-- C4, witness: the deadline error itself (`*os.PathError` wrapping
`os.EAGAIN`) buries silently. -/
theorem read_failure_buries_silently_witness :
    read (Sum.inl (OsError.pathError OsError.eagain)) =
        [ReadAct.unregisterConn, ReadAct.closeConn] ∧
      ∀ req, ReadAct.deliverQuery req ∉
        read (Sum.inl (OsError.pathError OsError.eagain)) :=
  read_failure_buries_silently (OsError.pathError OsError.eagain)

/-- C5: after `Shutdown` the listener reference is nil, the delivery
channel is closed, the registry is empty, every previously registered
connection was force-closed, and a subsequent `Read` (which no longer
blocks: the closed channel yields immediately) returns the `os.EBADF`
shutdown sentinel. -/
theorem shutdown_clears_server (st : ServerState) :
    (Shutdown st).1.listen = none ∧
      (Shutdown st).1.qchClosed = true ∧
      (Shutdown st).1.conns = [] ∧
      (∀ ssc, ssc ∈ st.conns → ShutAct.forceClose ssc ∈ (Shutdown st).2) ∧
      (∀ q, Read (Shutdown st).1.qchClosed q = (none, some OsError.ebadf)) := by
  refine ⟨rfl, rfl, rfl, ?_, ?_⟩
  · intro ssc h
    rw [Shutdown]
    exact List.mem_cons_of_mem _ (List.mem_cons_of_mem _
      (List.mem_append_right _ (forceClose_mem_forceCloseAll st.conns ssc h)))
  · intro q
    rfl

/-- C5, witness: shutting down a server with listener `5` and two
registered connections. -/
theorem shutdown_clears_server_witness :
    (Shutdown ⟨some 5, [1, 2], false⟩).1.listen = none ∧
      (Shutdown ⟨some 5, [1, 2], false⟩).1.qchClosed = true ∧
      (Shutdown ⟨some 5, [1, 2], false⟩).1.conns = [] ∧
      (∀ ssc, ssc ∈ [1, 2] →
        ShutAct.forceClose ssc ∈ (Shutdown ⟨some 5, [1, 2], false⟩).2) ∧
      (∀ q, Read (Shutdown ⟨some 5, [1, 2], false⟩).1.qchClosed q =
        (none, some OsError.ebadf)) :=
  shutdown_clears_server ⟨some 5, [1, 2], false⟩

/-- C6: a live-listener sweeper cycle snapshots the stale set under the
lock, buries — after releasing the lock — exactly the registered
connections with `now - stamp ≥ tmo`, and ends by sleeping exactly `tmo`;
a cycle that observes a nil listener exits without burying anything. -/
theorem expire_cycle_spec (l : Nat) (conns : List Nat) (stamp : Nat → Int) (now tmo : Int) :
    expireCycle (some l) conns stamp now tmo =
        [SweepAct.lockAcq,
          SweepAct.snapshotKills (conns.filter (fun ssc => now - stamp ssc ≥ tmo)),
          SweepAct.lockRel] ++
          buryAll (conns.filter (fun ssc => now - stamp ssc ≥ tmo)) ++
          [SweepAct.sleepFor tmo] ∧
      (∀ ssc, SweepAct.buryC ssc ∈ expireCycle (some l) conns stamp now tmo ↔
        ssc ∈ conns ∧ now - stamp ssc ≥ tmo) ∧
      expireCycle none conns stamp now tmo =
        [SweepAct.lockAcq, SweepAct.lockRel, SweepAct.sweepExit] := by
  refine ⟨?_, ?_, rfl⟩
  · simp [expireCycle, collectKills_eq_filter]
  · intro ssc
    simp [expireCycle, collectKills_eq_filter, buryC_mem_buryAll, List.mem_filter]

/-- C6, witness: a cycle over registry `[1, 2, 3]` where only connection 2
is stale. -/
theorem expire_cycle_spec_witness :
    expireCycle (some 7) [1, 2, 3] (fun ssc => if ssc = 2 then 0 else 100) 100 50 =
        [SweepAct.lockAcq,
          SweepAct.snapshotKills
            ([1, 2, 3].filter
              (fun ssc => (100 : Int) - (if ssc = 2 then 0 else 100) ≥ 50)),
          SweepAct.lockRel] ++
          buryAll
            ([1, 2, 3].filter
              (fun ssc => (100 : Int) - (if ssc = 2 then 0 else 100) ≥ 50)) ++
          [SweepAct.sleepFor 50] ∧
      (∀ ssc, SweepAct.buryC ssc ∈
          expireCycle (some 7) [1, 2, 3] (fun ssc => if ssc = 2 then 0 else 100) 100 50 ↔
        ssc ∈ [1, 2, 3] ∧ (100 : Int) - (if ssc = 2 then 0 else 100) ≥ 50) ∧
      expireCycle none [1, 2, 3] (fun ssc => if ssc = 2 then 0 else 100) 100 50 =
        [SweepAct.lockAcq, SweepAct.lockRel, SweepAct.sweepExit] :=
  expire_cycle_spec 7 [1, 2, 3] (fun ssc => if ssc = 2 then 0 else 100) 100 50

/-- C7: once `Shutdown` has closed the delivery channel, every subsequent
registration attempt fails and leaves the registry unchanged. -/
theorem register_after_shutdown_fails (st : ServerState) (conns : List Nat) (ssc : Nat) :
    register (Shutdown st).1.qchClosed conns ssc = (RegOutcome.regFail, conns) := by
  rfl

/-- C7, witness: registering connection 7 after shutting down a live
server fails and leaves the registry `[4]` unchanged. -/
theorem register_after_shutdown_fails_witness :
    register (Shutdown ⟨some 3, [4], false⟩).1.qchClosed [4] 7 =
      (RegOutcome.regFail, [4]) :=
  register_after_shutdown_fails ⟨some 3, [4], false⟩ [4] 7

/-- C8: `NewServer` panics exactly when the timeout is below the minimal
threshold 2; at or above it, construction succeeds, returning the server
with the given listener, an empty registry, an open channel, the admission
capacity, and both background tasks started. -/
theorem newServer_guard (l : Nat) (tmo : Int) (fdlim : Nat) :
    (tmo < 2 → NewServer l tmo fdlim = none) ∧
      (2 ≤ tmo →
        NewServer l tmo fdlim =
          some
            { state := { listen := some l, conns := [], qchClosed := false },
              fdCapacity := fdlim,
              tasks := [TaskKind.acceptTask, TaskKind.expireTask] }) := by
  constructor
  · intro h
    simp [NewServer, h]
  · intro h
    simp [NewServer]
    omega

/-- C8, witness: timeout 1 panics; timeout 2 constructs the server. -/
theorem newServer_guard_witness :
    NewServer 0 1 4 = none ∧
      NewServer 0 2 4 =
        some
          { state := { listen := some 0, conns := [], qchClosed := false },
            fdCapacity := 4,
            tasks := [TaskKind.acceptTask, TaskKind.expireTask] } :=
  ⟨(newServer_guard 0 1 4).1 (by decide), (newServer_guard 0 2 4).2 (by decide)⟩

/-- C9: if the channel's closed flag is already set when `Read` checks it,
`Read` returns the shutdown sentinel and discards the dequeued query, even
when that query is a successfully read request carrying no error. -/
theorem read_race_discards_query (q : Query) (_hq : q.err = none) :
    Read true q = (none, some OsError.ebadf) ∧ (Read true q).1 = none := by
  exact ⟨rfl, rfl⟩

/-- C9, witness: a request-bearing query from connection 1 is discarded. -/
theorem read_race_discards_query_witness :
    Read true ⟨some 1, some 42, none⟩ = (none, some OsError.ebadf) ∧
      (Read true ⟨some 1, some 42, none⟩).1 = none :=
  read_race_discards_query ⟨some 1, some 42, none⟩ rfl

/-- C10: when `c.SetReadTimeout(srv.tmo)` fails on a newly accepted
connection, the iteration closes the connection, releases the slot, sends
exactly one terminal error Query, makes no further accept call (for any
continuation of the loop), and the loop exits — the same treatment as an
accept failure; `Read` surfaces the error. -/
theorem setReadTimeout_failure_terminal (env : AcceptEnv) (e : OsError)
    (rest : List AcceptEnv) (hl : env.listenerNil = false)
    (ha : env.acceptErr = none) (hs : env.setTimeoutErr = some e) :
    acceptLoopRun (env :: rest) =
      [AcceptAct.fdlLock, AcceptAct.acceptCall, AcceptAct.setKeepAlive,
        AcceptAct.closeRaw, AcceptAct.fdlUnlock, AcceptAct.sendErrQuery e] ∧
      (acceptLoopRun (env :: rest)).count AcceptAct.acceptCall = 1 ∧
      (acceptLoopRun (env :: rest)).countP isSendErr = 1 ∧
      AcceptAct.closeRaw ∈ acceptLoopRun (env :: rest) ∧
      AcceptAct.fdlUnlock ∈ acceptLoopRun (env :: rest) ∧
      Read false (newQueryErr e) = (none, some e) := by
  obtain ⟨ln, ae, acn, ste, ro⟩ := env
  simp only at hl ha hs
  subst hl
  subst ha
  subst hs
  simp [acceptLoopRun, acceptIter, isSendErr, List.count_cons, List.countP_cons,
    Read, newQueryErr, Query.getError]

/-- C10, witness: a concrete deadline-setting failure followed by a
would-be further iteration that is never reached. -/
theorem setReadTimeout_failure_terminal_witness :
    acceptLoopRun
        [{ listenerNil := false, acceptErr := none, acceptConnNil := false,
           setTimeoutErr := some (OsError.otherErr 3), registerOk := true },
         { listenerNil := false, acceptErr := none, acceptConnNil := false,
           setTimeoutErr := none, registerOk := true }] =
      [AcceptAct.fdlLock, AcceptAct.acceptCall, AcceptAct.setKeepAlive,
        AcceptAct.closeRaw, AcceptAct.fdlUnlock,
        AcceptAct.sendErrQuery (OsError.otherErr 3)] ∧
      (acceptLoopRun
        [{ listenerNil := false, acceptErr := none, acceptConnNil := false,
           setTimeoutErr := some (OsError.otherErr 3), registerOk := true },
         { listenerNil := false, acceptErr := none, acceptConnNil := false,
           setTimeoutErr := none, registerOk := true }]).count AcceptAct.acceptCall = 1 ∧
      (acceptLoopRun
        [{ listenerNil := false, acceptErr := none, acceptConnNil := false,
           setTimeoutErr := some (OsError.otherErr 3), registerOk := true },
         { listenerNil := false, acceptErr := none, acceptConnNil := false,
           setTimeoutErr := none, registerOk := true }]).countP isSendErr = 1 ∧
      AcceptAct.closeRaw ∈ acceptLoopRun
        [{ listenerNil := false, acceptErr := none, acceptConnNil := false,
           setTimeoutErr := some (OsError.otherErr 3), registerOk := true },
         { listenerNil := false, acceptErr := none, acceptConnNil := false,
           setTimeoutErr := none, registerOk := true }] ∧
      AcceptAct.fdlUnlock ∈ acceptLoopRun
        [{ listenerNil := false, acceptErr := none, acceptConnNil := false,
           setTimeoutErr := some (OsError.otherErr 3), registerOk := true },
         { listenerNil := false, acceptErr := none, acceptConnNil := false,
           setTimeoutErr := none, registerOk := true }] ∧
      Read false (newQueryErr (OsError.otherErr 3)) = (none, some (OsError.otherErr 3)) :=
  setReadTimeout_failure_terminal _ (OsError.otherErr 3) _ rfl rfl rfl

end GoHTTPServer
